import Mathlib

/-!
A shallow embedding of the trap/interrupt dispatch layer of the JOS-style
kernel in `kern/trap.c`: the IDT builder (`idt_init`), the trap dispatcher
(`trap_dispatch`), the trap entry point (`trap`), the page fault handler
(`page_fault_handler`), the single-step check (`single_step_enabled`) and
the fast-syscall MSR configuration (`enable_sep`).

Machine words (`uint32_t`) are modelled as `Nat`, with explicit `% 2^32`
truncation where C performs a narrowing conversion.  Side effects (console
output, monitor calls, the syscall upcall) are modelled as an event trace,
and the control-flow outcome of a handler (panic, destroying the current
environment, returning to the caller, resuming an environment) as an
explicit terminal value.  External collaborators — `syscall`, the CR2 and
DR6 hardware registers, the `vectors` stub table — enter as parameters.
-/

namespace Jos

/-- Modelled from the spec: trap numbers from the repository header
`inc/trap.h` (standard x86 exception numbering; debug = 1, breakpoint = 3,
page fault = 14, and the software system-call vector 48 = 0x30). -/
def T_DEBUG : Nat := 1

def T_BRKPT : Nat := 3

def T_PGFLT : Nat := 14

def T_SYSCALL : Nat := 48

/-- Modelled from the spec: global descriptor table selectors from the
repository header `inc/memlayout.h` (kernel code = 0x8, kernel data = 0x10,
task state segment = 0x28). -/
def GD_KT : Nat := 0x8

def GD_KD : Nat := 0x10

def GD_TSS : Nat := 0x28

/-- Modelled from the spec: descriptor privilege level for user mode
(`inc/mmu.h`). -/
def DPL_USER : Nat := 3

/-- Modelled from the spec: gate/segment type codes from `inc/mmu.h`
(32-bit interrupt gate, 32-bit trap gate, available 32-bit TSS). -/
def STS_IG32 : Nat := 0xE

def STS_TG32 : Nat := 0xF

def STS_T32A : Nat := 0x9

/-- Modelled from the spec: the top of the single kernel stack
(`inc/memlayout.h`). -/
def KSTACKTOP : Nat := 0xf0000000

/-- The record `struct PushRegs` (from `inc/trap.h`): the general-purpose registers
pushed by the entry stubs, in the order the handlers read them. -/
structure PushRegs where
  reg_edi : Nat
  reg_esi : Nat
  reg_ebp : Nat
  reg_oesp : Nat
  reg_ebx : Nat
  reg_edx : Nat
  reg_ecx : Nat
  reg_eax : Nat
deriving Repr, DecidableEq

/-- The record `struct Trapframe` (from `inc/trap.h`): the saved execution context
captured on every trap. -/
structure Trapframe where
  tf_regs : PushRegs
  tf_es : Nat
  tf_ds : Nat
  tf_trapno : Nat
  tf_err : Nat
  tf_eip : Nat
  tf_cs : Nat
  tf_eflags : Nat
  tf_esp : Nat
  tf_ss : Nat
deriving Repr, DecidableEq

/-- Environment status codes from `kern/env.h`. -/
inductive EnvStatus where
  | ENV_FREE
  | ENV_RUNNABLE
  | ENV_NOT_RUNNABLE
deriving Repr, DecidableEq

/-- The slice of `struct Env` (from `kern/env.h`) this subsystem touches:
the environment id, the persistent saved-context slot `env_tf`, and the
run status checked by the `assert` in `trap`. -/
structure Env where
  env_id : Nat
  env_tf : Trapframe
  env_status : EnvStatus
deriving Repr, DecidableEq

/-- Observable events emitted while handling a trap: console output lines
and calls into external collaborators. -/
inductive Ev where
  /-- the `Incoming TRAP frame` line printed on entry to `trap` -/
  | printIncoming
  /-- the `[envid] user fault va ... ip ...` line of `page_fault_handler` -/
  | printUserFault (envId faultVa eip : Nat)
  /-- the full frame dump of `print_trapframe` (with `print_regs`) -/
  | printFrame (tf : Trapframe)
  /-- the upcall `syscall(eax, edx, ecx, ebx, edi, esi)` with its arguments
  in the positional order the dispatcher passes them -/
  | syscallCall (num a1 a2 a3 a4 a5 : Nat)
  /-- `monitor(tf)`: forwarding a breakpoint to the external monitor -/
  | monitorBrk (tf : Trapframe)
  /-- `monitor_ss(tf)`: forwarding a debug trap to the single-step monitor -/
  | monitorSS (tf : Trapframe)
deriving Repr, DecidableEq

/-- The control-flow outcome of a handler or of the whole trap entry. -/
inductive Term where
  /-- `panic(msg)`: the system halts -/
  | panic (msg : String)
  /-- a failed `assert(msg)`: the system halts -/
  | assertFail (msg : String)
  /-- `env_destroy(curenv)` on the environment with this id; the faulting
  environment is never resumed -/
  | destroyed (envId : Nat)
  /-- the handler returned to its caller with this (possibly mutated)
  frame -/
  | returned (tf : Trapframe)
  /-- undefined behavior: a dereference of the null `curenv` pointer -/
  | nullDeref
  /-- `env_run(curenv)`: resume the environment with this id (one-way) -/
  | ranEnv (envId : Nat)
  /-- `trap` returned to its caller without resuming any environment
  (the single-step path) -/
  | retNoRun
deriving Repr, DecidableEq

/-- Two's-complement image of a C `int` stored into a `uint32_t` slot. -/
def u32ofInt (z : Int) : Nat := (z % (2 ^ 32 : Int)).toNat

/-- The handler `page_fault_handler(tf)`: reads the faulting address from CR2 (here the
parameter `fault_va`), prints the `user fault` line (dereferencing
`curenv->env_id` with no null check) and the full frame, then panics on a
kernel-selector frame and otherwise destroys the current environment. -/
def page_fault_handler (fault_va : Nat) (curenv : Option Env)
    (tf : Trapframe) : List Ev × Term :=
  match curenv with
  | none => ([], Term.nullDeref)
  | some e =>
    let evs := [Ev.printUserFault e.env_id fault_va tf.tf_eip,
                Ev.printFrame tf]
    if tf.tf_cs = GD_KT then (evs, Term.panic "Page fault in kernel")
    else (evs, Term.destroyed e.env_id)

/-- The dispatcher `trap_dispatch(tf)`: route by trap number.  The syscall upcall is the
parameter `sys` (returning a C `int`); its result is narrowed into the
`uint32_t` slot `reg_eax`.  The default arm dumps the frame, then panics on
a kernel-selector frame and otherwise destroys the current environment. -/
def trap_dispatch (sys : Nat → Nat → Nat → Nat → Nat → Nat → Int)
    (fault_va : Nat) (curenv : Option Env) (tf : Trapframe) :
    List Ev × Term :=
  if tf.tf_trapno = T_PGFLT then page_fault_handler fault_va curenv tf
  else if tf.tf_trapno = T_BRKPT then ([Ev.monitorBrk tf], Term.returned tf)
  else if tf.tf_trapno = T_DEBUG then ([Ev.monitorSS tf], Term.returned tf)
  else if tf.tf_trapno = T_SYSCALL then
    let regs := tf.tf_regs
    let ret := sys regs.reg_eax regs.reg_edx regs.reg_ecx
                   regs.reg_ebx regs.reg_edi regs.reg_esi
    ([Ev.syscallCall regs.reg_eax regs.reg_edx regs.reg_ecx
        regs.reg_ebx regs.reg_edi regs.reg_esi],
     Term.returned { tf with tf_regs := { regs with reg_eax := u32ofInt ret } })
  else
    if tf.tf_cs = GD_KT then
      ([Ev.printFrame tf], Term.panic "unhandled trap in kernel")
    else
      match curenv with
      | none => ([Ev.printFrame tf], Term.nullDeref)
      | some e => ([Ev.printFrame tf], Term.destroyed e.env_id)

/-- The single-step bit of DR6 tested by `single_step_enabled`. -/
def SSTEP_BIT : Nat := 0x4000

/-- The check `single_step_enabled()`: reads DR6; if the single-step bit is set,
clears it in DR6 and reports true.  Returns (result, new DR6 value). -/
def single_step_enabled (dr6 : Nat) : Bool × Nat :=
  if dr6 &&& SSTEP_BIT ≠ 0 then
    (true, dr6 &&& (0xFFFFFFFF ^^^ SSTEP_BIT))
  else (false, dr6)

/-- The result of running the trap entry point `trap`: the emitted events,
the control-flow outcome, the final current environment (whose `env_tf`
slot dispatch may have updated), and the final DR6 value. -/
structure TrapResult where
  events : List Ev
  term : Term
  curenv : Option Env
  dr6 : Nat
deriving Repr, DecidableEq

/-- The tail of `trap` after `trap_dispatch` returns: if the single-step
condition is pending, clear it and return without resuming; otherwise
assert the current environment is runnable and hand it to `env_run`. -/
def trap_finish (dr6 : Nat) (curenv : Option Env) (evs : List Ev) :
    TrapResult :=
  if (single_step_enabled dr6).1 then
    ⟨evs, Term.retNoRun, curenv, (single_step_enabled dr6).2⟩
  else
    match curenv with
    | some e =>
      if e.env_status = EnvStatus.ENV_RUNNABLE then
        ⟨evs, Term.ranEnv e.env_id, curenv, (single_step_enabled dr6).2⟩
      else
        ⟨evs, Term.assertFail "curenv && curenv->env_status == ENV_RUNNABLE",
         curenv, (single_step_enabled dr6).2⟩
    | none =>
      ⟨evs, Term.assertFail "curenv && curenv->env_status == ENV_RUNNABLE",
       curenv, (single_step_enabled dr6).2⟩

/-- The entry point `trap(tf)`: print the incoming-frame line; if the saved code segment
has requested privilege level 3, assert `curenv`, copy the raw frame into
`curenv->env_tf` and rebind `tf` to that persistent copy; dispatch; then
run the single-step check / `env_run` tail.  Handler mutations of the
frame land in `env_tf` exactly when the frame was rebound. -/
def trap (sys : Nat → Nat → Nat → Nat → Nat → Nat → Int)
    (fault_va dr6 : Nat) (curenv : Option Env) (tf : Trapframe) :
    TrapResult :=
  if tf.tf_cs &&& 3 = 3 then
    match curenv with
    | none => ⟨[Ev.printIncoming], Term.assertFail "curenv", none, dr6⟩
    | some e =>
      let e1 : Env := { e with env_tf := tf }
      let d := trap_dispatch sys fault_va (some e1) tf
      match d.2 with
      | Term.returned tf2 =>
        trap_finish dr6 (some { e1 with env_tf := tf2 })
          (Ev.printIncoming :: d.1)
      | t => ⟨Ev.printIncoming :: d.1, t, some e1, dr6⟩
  else
    let d := trap_dispatch sys fault_va curenv tf
    match d.2 with
    | Term.returned _ => trap_finish dr6 curenv (Ev.printIncoming :: d.1)
    | t => ⟨Ev.printIncoming :: d.1, t, curenv, dr6⟩

/-- A gate descriptor (`struct Gatedesc`, `inc/mmu.h`), with the bitfields
`SETGATE` writes. -/
structure Gatedesc where
  gd_off_15_0 : Nat
  gd_ss : Nat
  gd_args : Nat
  gd_rsv1 : Nat
  gd_type : Nat
  gd_s : Nat
  gd_dpl : Nat
  gd_p : Nat
  gd_off_31_16 : Nat
deriving Repr, DecidableEq

/-- The macro `SETGATE(gate, istrap, sel, off, dpl)` from `inc/mmu.h`: fill in every
field of a gate descriptor.  The 16-bit bitfields truncate mod 2^16. -/
def SETGATE (istrap : Bool) (sel off dpl : Nat) : Gatedesc :=
  { gd_off_15_0 := off % 2 ^ 16
    gd_ss := sel
    gd_args := 0
    gd_rsv1 := 0
    gd_type := if istrap then STS_TG32 else STS_IG32
    gd_s := 0
    gd_dpl := dpl
    gd_p := 1
    gd_off_31_16 := (off / 2 ^ 16) % 2 ^ 16 }

/-- The gate `idt_init` writes for trap number `i`: an interrupt gate to
`vectors[i]` in the kernel code segment, DPL 3 for the breakpoint and
system-call vectors and DPL 0 for every other vector. -/
def gate_for (vectors : Nat → Nat) (i : Nat) : Gatedesc :=
  if i = T_BRKPT ∨ i = T_SYSCALL then SETGATE false GD_KT (vectors i) DPL_USER
  else SETGATE false GD_KT (vectors i) 0

/-- A segment descriptor (`struct Segdesc`, `inc/mmu.h`), with the fields
`SEG16` writes. -/
structure Segdesc where
  sd_lim_15_0 : Nat
  sd_base_15_0 : Nat
  sd_base_23_16 : Nat
  sd_type : Nat
  sd_s : Nat
  sd_dpl : Nat
  sd_p : Nat
  sd_lim_19_16 : Nat
  sd_avl : Nat
  sd_rsv1 : Nat
  sd_db : Nat
  sd_g : Nat
  sd_base_31_24 : Nat
deriving Repr, DecidableEq

/-- The macro `SEG16(type, base, lim, dpl)` from `inc/mmu.h`. -/
def SEG16 (ty base lim dpl : Nat) : Segdesc :=
  { sd_lim_15_0 := lim % 2 ^ 16
    sd_base_15_0 := base % 2 ^ 16
    sd_base_23_16 := (base / 2 ^ 16) % 2 ^ 8
    sd_type := ty
    sd_s := 1
    sd_dpl := dpl
    sd_p := 1
    sd_lim_19_16 := (lim / 2 ^ 16) % 2 ^ 4
    sd_avl := 0
    sd_rsv1 := 0
    sd_db := 1
    sd_g := 0
    sd_base_31_24 := (base / 2 ^ 24) % 2 ^ 8 }

/-- The value `sizeof(struct Taskstate)` on the 32-bit target: 26 four-byte fields. -/
def sizeof_Taskstate : Nat := 104

/-- The kernel state `idt_init` writes: the 256-entry IDT, the two task
state fields `ts_esp0` / `ts_ss0`, and the TSS slot of the GDT. -/
structure KState where
  idt : List Gatedesc
  ts_esp0 : Nat
  ts_ss0 : Nat
  gdt_tss : Segdesc
deriving Repr, DecidableEq

/-- The builder `idt_init()`: write all 256 gate descriptors (DPL 3 only for the
breakpoint and system-call vectors), set the TSS kernel stack top and
segment, and install the TSS descriptor (with `sd_s` forced to 0) in the
GDT.  `ts_addr` stands for `(uint32_t) &ts`.  The `ltr` and `lidt`
hardware loads have no effect on this state. -/
def idt_init (vectors : Nat → Nat) (ts_addr : Nat) (_s : KState) : KState :=
  { idt := (List.range 256).map (gate_for vectors)
    ts_esp0 := KSTACKTOP
    ts_ss0 := GD_KD
    gdt_tss := { SEG16 STS_T32A ts_addr sizeof_Taskstate 0 with sd_s := 0 } }

/-- The primitive `wrmsr(addr, lo, hi)`: write the 64-bit value `hi:lo` to the
model-specific register file at `addr`. -/
def wrmsr (msrs : Nat → Nat) (addr lo hi : Nat) : Nat → Nat :=
  fun a => if a = addr then (hi % 2 ^ 32) * 2 ^ 32 + lo % 2 ^ 32 else msrs a

/-- The configurator `enable_sep()`: configure the fast system-call path by writing the
three SYSENTER MSRs — CS (0x174), ESP (0x175), EIP (0x176) — with the
kernel code selector, the kernel stack top, and the address of the
dedicated `sysenter_handler` stub. -/
def enable_sep (sysenter_handler : Nat) (msrs : Nat → Nat) : Nat → Nat :=
  wrmsr (wrmsr (wrmsr msrs 0x174 GD_KT 0) 0x175 KSTACKTOP 0)
    0x176 (sysenter_handler % 2 ^ 32) 0

/-- The environment `trap_dispatch` sees: in user mode (RPL 3 in the saved
code segment) the raw frame has first been copied into `env_tf`. -/
def dispatch_env (curenv : Option Env) (tf : Trapframe) : Option Env :=
  if tf.tf_cs &&& 3 = 3 then
    curenv.map (fun e => { e with env_tf := tf })
  else curenv

/-- Concrete collaborators and frames used to instantiate the theorems. -/
def regs0 : PushRegs :=
  { reg_edi := 5, reg_esi := 6, reg_ebp := 0, reg_oesp := 0,
    reg_ebx := 4, reg_edx := 2, reg_ecx := 3, reg_eax := 1 }

def tf0 : Trapframe :=
  { tf_regs := regs0, tf_es := GD_KD, tf_ds := GD_KD, tf_trapno := 8,
    tf_err := 0, tf_eip := 0x100, tf_cs := GD_KT, tf_eflags := 0,
    tf_esp := 0, tf_ss := GD_KD }

def env0 : Env :=
  { env_id := 0x1001, env_tf := tf0, env_status := EnvStatus.ENV_RUNNABLE }

def sys0 : Nat → Nat → Nat → Nat → Nat → Nat → Int :=
  fun num a1 a2 a3 a4 a5 => (num : Int) + a1 + a2 + a3 + a4 + a5

theorem single_step_enabled_pos (dr6 : Nat) (h : dr6 &&& SSTEP_BIT ≠ 0) :
    single_step_enabled dr6 = (true, dr6 &&& (0xFFFFFFFF ^^^ SSTEP_BIT)) := by
  unfold single_step_enabled
  rw [if_pos h]

theorem single_step_enabled_neg (dr6 : Nat) (h : dr6 &&& SSTEP_BIT = 0) :
    single_step_enabled dr6 = (false, dr6) := by
  unfold single_step_enabled
  rw [if_neg (by simp [h])]

theorem trap_finish_curenv (dr6 : Nat) (c : Option Env) (evs : List Ev) :
    (trap_finish dr6 c evs).curenv = c := by
  unfold trap_finish
  split
  · rfl
  · match c with
    | none => rfl
    | some e =>
      dsimp only
      split <;> rfl

/-- C1: for every trap frame whose trap number is none of page fault,
breakpoint, debug, or system call, `trap_dispatch` takes the default arm:
it dumps the full frame, then panics when the saved code segment is the
kernel code selector (the code's test for kernel mode), and destroys the
current environment otherwise (in particular for every user-mode code
segment, whose RPL 3 makes it differ from `GD_KT`); the decision diverges
only on the saved code segment of the frame. -/
theorem trap_dispatch_default_arm
    (sys : Nat → Nat → Nat → Nat → Nat → Nat → Int) (fault_va : Nat)
    (e : Env) (tf : Trapframe)
    (hpg : tf.tf_trapno ≠ T_PGFLT) (hbp : tf.tf_trapno ≠ T_BRKPT)
    (hdb : tf.tf_trapno ≠ T_DEBUG) (hsc : tf.tf_trapno ≠ T_SYSCALL) :
    (trap_dispatch sys fault_va (some e) tf).1 = [Ev.printFrame tf] ∧
    (tf.tf_cs = GD_KT →
      (trap_dispatch sys fault_va (some e) tf).2 =
        Term.panic "unhandled trap in kernel") ∧
    (tf.tf_cs ≠ GD_KT →
      (trap_dispatch sys fault_va (some e) tf).2 = Term.destroyed e.env_id) := by
  unfold trap_dispatch
  rw [if_neg hpg, if_neg hbp, if_neg hdb, if_neg hsc]
  by_cases hcs : tf.tf_cs = GD_KT
  · rw [if_pos hcs]
    exact ⟨rfl, fun _ => rfl, fun h => absurd hcs h⟩
  · rw [if_neg hcs]
    exact ⟨rfl, fun h => absurd h hcs, fun _ => rfl⟩

theorem trap_dispatch_default_arm_spot :
    (trap_dispatch sys0 0 (some env0) tf0).1 = [Ev.printFrame tf0] ∧
    (tf0.tf_cs = GD_KT →
      (trap_dispatch sys0 0 (some env0) tf0).2 =
        Term.panic "unhandled trap in kernel") ∧
    (tf0.tf_cs ≠ GD_KT →
      (trap_dispatch sys0 0 (some env0) tf0).2 =
        Term.destroyed env0.env_id) :=
  trap_dispatch_default_arm sys0 0 env0 tf0
    (by decide) (by decide) (by decide) (by decide)

/-- C2: for every trap frame carrying the system-call number,
`trap_dispatch` invokes the external `syscall` entry point with exactly the
six general-purpose registers in the fixed positional order (`eax` as call
number, then `edx`, `ecx`, `ebx`, `edi`, `esi`), and writes the returned
`int`, as a 32-bit value, back into the frame's `eax` slot, leaving every
other field of the frame unchanged. -/
theorem trap_dispatch_syscall
    (sys : Nat → Nat → Nat → Nat → Nat → Nat → Int) (fault_va : Nat)
    (curenv : Option Env) (tf : Trapframe)
    (h : tf.tf_trapno = T_SYSCALL) :
    trap_dispatch sys fault_va curenv tf =
      ([Ev.syscallCall tf.tf_regs.reg_eax tf.tf_regs.reg_edx
          tf.tf_regs.reg_ecx tf.tf_regs.reg_ebx tf.tf_regs.reg_edi
          tf.tf_regs.reg_esi],
       Term.returned
         { tf with tf_regs := { tf.tf_regs with reg_eax := (u32ofInt
             (sys tf.tf_regs.reg_eax tf.tf_regs.reg_edx
               tf.tf_regs.reg_ecx tf.tf_regs.reg_ebx tf.tf_regs.reg_edi
               tf.tf_regs.reg_esi)) } }) := by
  unfold trap_dispatch
  rw [h]
  norm_num [T_SYSCALL, T_PGFLT, T_BRKPT, T_DEBUG]

theorem trap_dispatch_syscall_spot :
    trap_dispatch sys0 0 (some env0) { tf0 with tf_trapno := T_SYSCALL } =
      ([Ev.syscallCall 1 2 3 4 5 6],
       Term.returned { tf0 with
         tf_trapno := T_SYSCALL,
         tf_regs := { regs0 with reg_eax := 21 } }) := by
  have h := trap_dispatch_syscall sys0 0 (some env0)
    { tf0 with tf_trapno := T_SYSCALL } (by decide)
  rw [h]
  rfl

/-- C3: for every page-fault frame, `page_fault_handler` first emits the
diagnostic line carrying the current environment id, the faulting address
read from CR2, and the faulting instruction pointer, then the full frame
dump; a frame whose saved code segment is the kernel code selector panics
(and in that case no environment destruction occurs), any other frame
destroys the current environment. -/
theorem page_fault_handler_spec (fault_va : Nat) (e : Env) (tf : Trapframe) :
    (page_fault_handler fault_va (some e) tf).1 =
      [Ev.printUserFault e.env_id fault_va tf.tf_eip, Ev.printFrame tf] ∧
    (tf.tf_cs = GD_KT →
      (page_fault_handler fault_va (some e) tf).2 =
        Term.panic "Page fault in kernel" ∧
      ∀ i, (page_fault_handler fault_va (some e) tf).2 ≠ Term.destroyed i) ∧
    (tf.tf_cs ≠ GD_KT →
      (page_fault_handler fault_va (some e) tf).2 = Term.destroyed e.env_id) := by
  have hred : page_fault_handler fault_va (some e) tf =
      ([Ev.printUserFault e.env_id fault_va tf.tf_eip, Ev.printFrame tf],
       if tf.tf_cs = GD_KT then Term.panic "Page fault in kernel"
       else Term.destroyed e.env_id) := by
    unfold page_fault_handler
    dsimp only
    split <;> rfl
  rw [hred]
  by_cases hcs : tf.tf_cs = GD_KT
  · rw [if_pos hcs]
    exact ⟨rfl, fun _ => ⟨rfl, fun i hi => Term.noConfusion hi⟩,
           fun h => absurd hcs h⟩
  · rw [if_neg hcs]
    exact ⟨rfl, fun h => absurd h hcs, fun _ => rfl⟩

theorem page_fault_handler_spec_spot :
    (page_fault_handler 0xdead (some env0) tf0).1 =
      [Ev.printUserFault env0.env_id 0xdead tf0.tf_eip, Ev.printFrame tf0] ∧
    (tf0.tf_cs = GD_KT →
      (page_fault_handler 0xdead (some env0) tf0).2 =
        Term.panic "Page fault in kernel" ∧
      ∀ i, (page_fault_handler 0xdead (some env0) tf0).2 ≠
        Term.destroyed i) ∧
    (tf0.tf_cs ≠ GD_KT →
      (page_fault_handler 0xdead (some env0) tf0).2 =
        Term.destroyed env0.env_id) :=
  page_fault_handler_spec 0xdead env0 tf0

/-- C10: `page_fault_handler` emits the user-fault diagnostic line and the
full frame dump before testing for kernel privilege — the trace is the
same whatever the saved code segment, in particular for a kernel-mode
frame — and the diagnostic reads `curenv->env_id` with no null check, so
when no current environment exists the handler dereferences the null
pointer before producing any output. -/
theorem page_fault_handler_unconditional_diag (fault_va : Nat)
    (tf : Trapframe) (e : Env) :
    (page_fault_handler fault_va (some e) tf).1 =
      [Ev.printUserFault e.env_id fault_va tf.tf_eip, Ev.printFrame tf] ∧
    page_fault_handler fault_va none tf = ([], Term.nullDeref) := by
  unfold page_fault_handler
  refine ⟨?_, rfl⟩
  dsimp only
  split <;> rfl

/-- C7: running `idt_init` twice leaves the same kernel state — the same
descriptor table, descriptor for descriptor — as running it once. -/
theorem idt_init_idempotent (vectors : Nat → Nat) (ts_addr : Nat)
    (s : KState) :
    idt_init vectors ts_addr (idt_init vectors ts_addr s) =
      idt_init vectors ts_addr s := rfl

/-- C8: `enable_sep` writes exactly the three SYSENTER model-specific
registers — the kernel code selector into MSR 0x174, the kernel stack top
into MSR 0x175, and the address of the fast-entry stub into MSR 0x176 —
and leaves every other model-specific register unchanged. -/
theorem enable_sep_spec (sysenter_handler : Nat) (msrs : Nat → Nat) :
    enable_sep sysenter_handler msrs 0x174 = GD_KT ∧
    enable_sep sysenter_handler msrs 0x175 = KSTACKTOP ∧
    enable_sep sysenter_handler msrs 0x176 = sysenter_handler % 2 ^ 32 ∧
    ∀ a, a ≠ 0x174 → a ≠ 0x175 → a ≠ 0x176 →
      enable_sep sysenter_handler msrs a = msrs a := by
  have hmm : (sysenter_handler % 2 ^ 32) % 2 ^ 32 = sysenter_handler % 2 ^ 32 :=
    Nat.mod_mod_of_dvd _ dvd_rfl
  refine ⟨by norm_num [enable_sep, wrmsr, GD_KT],
          by norm_num [enable_sep, wrmsr, KSTACKTOP],
          by simp [enable_sep, wrmsr, hmm],
          fun a h4 h5 h6 => ?_⟩
  simp [enable_sep, wrmsr, h4, h5, h6]

theorem enable_sep_spec_spot :
    enable_sep 0x123456 (fun a => a) 0x174 = GD_KT ∧
    enable_sep 0x123456 (fun a => a) 0x175 = KSTACKTOP ∧
    enable_sep 0x123456 (fun a => a) 0x176 = 0x123456 % 2 ^ 32 ∧
    ∀ a, a ≠ 0x174 → a ≠ 0x175 → a ≠ 0x176 →
      enable_sep 0x123456 (fun a => a) a = a :=
  enable_sep_spec 0x123456 (fun a => a)

/-- C5: `idt_init` writes exactly one gate descriptor per trap number
0..255: a present 32-bit interrupt gate in the kernel code segment whose
split offset fields reconstruct `vectors[i]`, with descriptor privilege
level `DPL_USER` exactly for the breakpoint and system-call vectors and 0
(kernel-only) for every other vector; it also sets the task state's kernel
stack top and kernel stack segment. -/
theorem idt_init_gates (vectors : Nat → Nat) (ts_addr : Nat) (s : KState)
    (i : Nat) (hi : i < 256) (hv : vectors i < 2 ^ 32) :
    (idt_init vectors ts_addr s).idt.length = 256 ∧
    (∃ g, (idt_init vectors ts_addr s).idt[i]? = some g ∧
      g.gd_off_31_16 * 2 ^ 16 + g.gd_off_15_0 = vectors i ∧
      g.gd_ss = GD_KT ∧ g.gd_type = STS_IG32 ∧ g.gd_s = 0 ∧ g.gd_p = 1 ∧
      g.gd_dpl = if i = T_BRKPT ∨ i = T_SYSCALL then DPL_USER else 0) ∧
    (idt_init vectors ts_addr s).ts_esp0 = KSTACKTOP ∧
    (idt_init vectors ts_addr s).ts_ss0 = GD_KD := by
  refine ⟨by simp [idt_init], ?_, rfl, rfl⟩
  refine ⟨gate_for vectors i, ?_, ?_, ?_, ?_, ?_, ?_, ?_⟩
  · simp [idt_init, List.getElem?_map, List.getElem?_range, hi]
  · have hoff : (gate_for vectors i).gd_off_31_16 = (vectors i / 2 ^ 16) % 2 ^ 16 := by
      unfold gate_for SETGATE
      split <;> rfl
    have hoff0 : (gate_for vectors i).gd_off_15_0 = vectors i % 2 ^ 16 := by
      unfold gate_for SETGATE
      split <;> rfl
    rw [hoff, hoff0]
    have hdiv : vectors i / 2 ^ 16 < 2 ^ 16 := by
      apply Nat.div_lt_of_lt_mul
      norm_num at hv ⊢
      exact hv
    rw [Nat.mod_eq_of_lt hdiv]
    have := Nat.div_add_mod (vectors i) (2 ^ 16)
    omega
  · unfold gate_for SETGATE
    split <;> rfl
  · unfold gate_for SETGATE
    split <;> rfl
  · unfold gate_for SETGATE
    split <;> rfl
  · unfold gate_for SETGATE
    split <;> rfl
  · unfold gate_for
    split <;> rfl

/-- A concrete prior kernel state for instantiating the startup theorems. -/
def ks0 : KState :=
  { idt := [], ts_esp0 := 0, ts_ss0 := 0, gdt_tss := SEG16 0 0 0 0 }

theorem idt_init_gates_spot :
    (idt_init (fun i => 0x100 + 8 * i) 0x200 ks0).idt.length = 256 ∧
    (∃ g, (idt_init (fun i => 0x100 + 8 * i) 0x200 ks0).idt[3]? = some g ∧
      g.gd_off_31_16 * 2 ^ 16 + g.gd_off_15_0 = (fun i => 0x100 + 8 * i) 3 ∧
      g.gd_ss = GD_KT ∧ g.gd_type = STS_IG32 ∧ g.gd_s = 0 ∧ g.gd_p = 1 ∧
      g.gd_dpl = if 3 = T_BRKPT ∨ 3 = T_SYSCALL then DPL_USER else 0) ∧
    (idt_init (fun i => 0x100 + 8 * i) 0x200 ks0).ts_esp0 = KSTACKTOP ∧
    (idt_init (fun i => 0x100 + 8 * i) 0x200 ks0).ts_ss0 = GD_KD :=
  idt_init_gates (fun i => 0x100 + 8 * i) 0x200 ks0 3 (by decide) (by decide)

/-- C4: when the raw frame's saved code segment has requested privilege
level 3, `trap` copies the raw frame into the current environment's
persistent `env_tf` slot and dispatch operates on that persistent copy, so
the frame a returning handler leaves behind (for example with the syscall
return value written into `eax`) is the frame stored in `env_tf`; when the
saved code segment is not at privilege level 3, dispatch operates on the
raw frame directly and the persistent slot of the current environment is
unchanged. -/
theorem trap_rebinds_frame
    (sys : Nat → Nat → Nat → Nat → Nat → Nat → Int) (fault_va dr6 : Nat)
    (e : Env) (cur : Option Env) (tf : Trapframe) :
    (tf.tf_cs &&& 3 = 3 →
      (trap sys fault_va dr6 (some e) tf).curenv =
        some { e with env_tf :=
          (match (trap_dispatch sys fault_va
              (some { e with env_tf := tf }) tf).2 with
           | Term.returned tf2 => tf2
           | _ => tf) }) ∧
    (tf.tf_cs &&& 3 ≠ 3 →
      (trap sys fault_va dr6 cur tf).curenv = cur) := by
  constructor
  · intro hu
    unfold trap
    rw [if_pos hu]
    dsimp only
    cases hd : (trap_dispatch sys fault_va (some { e with env_tf := tf }) tf).2 <;>
      simp [hd, trap_finish_curenv]
  · intro hk
    unfold trap
    rw [if_neg hk]
    dsimp only
    cases hd : (trap_dispatch sys fault_va cur tf).2 <;>
      simp [hd, trap_finish_curenv]

theorem trap_rebinds_frame_spot :
    (({ tf0 with tf_cs := 0x1B } : Trapframe).tf_cs &&& 3 = 3 →
      (trap sys0 0 0 (some env0) { tf0 with tf_cs := 0x1B }).curenv =
        some { env0 with env_tf :=
          (match (trap_dispatch sys0 0
              (some { env0 with env_tf := { tf0 with tf_cs := 0x1B } })
              { tf0 with tf_cs := 0x1B }).2 with
           | Term.returned tf2 => tf2
           | _ => { tf0 with tf_cs := 0x1B }) }) ∧
    (({ tf0 with tf_cs := 0x1B } : Trapframe).tf_cs &&& 3 ≠ 3 →
      (trap sys0 0 0 (some env0) { tf0 with tf_cs := 0x1B }).curenv =
        some env0) :=
  trap_rebinds_frame sys0 0 0 env0 (some env0) { tf0 with tf_cs := 0x1B }

theorem trap_finish_ss (dr6 : Nat) (c : Option Env) (evs : List Ev)
    (h : dr6 &&& SSTEP_BIT ≠ 0) :
    (trap_finish dr6 c evs).term = Term.retNoRun ∧
    (trap_finish dr6 c evs).dr6 = dr6 &&& (0xFFFFFFFF ^^^ SSTEP_BIT) := by
  unfold trap_finish
  rw [single_step_enabled_pos dr6 h]
  exact ⟨rfl, rfl⟩

theorem trap_finish_no_ss (dr6 : Nat) (c : Option Env) (evs : List Ev)
    (h : dr6 &&& SSTEP_BIT = 0) :
    (trap_finish dr6 c evs).dr6 = dr6 ∧
    (trap_finish dr6 c evs).term =
      (match c with
       | some e =>
         if e.env_status = EnvStatus.ENV_RUNNABLE then Term.ranEnv e.env_id
         else Term.assertFail "curenv && curenv->env_status == ENV_RUNNABLE"
       | none =>
         Term.assertFail "curenv && curenv->env_status == ENV_RUNNABLE") := by
  unfold trap_finish
  rw [single_step_enabled_neg dr6 h]
  match c with
  | none => exact ⟨rfl, rfl⟩
  | some e =>
    by_cases hst : e.env_status = EnvStatus.ENV_RUNNABLE <;> simp [hst]

theorem land_mask_sstep (d : Nat) :
    (d &&& (0xFFFFFFFF ^^^ SSTEP_BIT)) &&& SSTEP_BIT = 0 := by
  have h : (0xFFFFFFFF ^^^ SSTEP_BIT) &&& SSTEP_BIT = 0 := by decide
  rw [Nat.land_assoc, h]
  simp

theorem trap_reduces_to_finish
    (sys : Nat → Nat → Nat → Nat → Nat → Nat → Int) (fault_va dr6 : Nat)
    (cur : Option Env) (tf : Trapframe) (tf2 : Trapframe)
    (hd : (trap_dispatch sys fault_va (dispatch_env cur tf) tf).2 =
      Term.returned tf2)
    (hcur : tf.tf_cs &&& 3 = 3 → cur ≠ none) :
    ∃ c, trap sys fault_va dr6 cur tf =
      trap_finish dr6 c (Ev.printIncoming ::
        (trap_dispatch sys fault_va (dispatch_env cur tf) tf).1) ∧
      c.map (fun e => (e.env_id, e.env_status)) =
        cur.map (fun e => (e.env_id, e.env_status)) := by
  by_cases hu : tf.tf_cs &&& 3 = 3
  · obtain ⟨e, rfl⟩ : ∃ e, cur = some e := by
      cases cur with
      | none => exact absurd rfl (hcur hu)
      | some e => exact ⟨e, rfl⟩
    have hde : dispatch_env (some e) tf = some { e with env_tf := tf } := by
      unfold dispatch_env
      rw [if_pos hu]
      rfl
    rw [hde] at hd
    refine ⟨some { e with env_tf := tf2 }, ?_, rfl⟩
    unfold trap
    rw [if_pos hu, hde]
    dsimp only
    rw [hd]
  · have hde : dispatch_env cur tf = cur := by
      unfold dispatch_env
      rw [if_neg hu]
    rw [hde] at hd
    refine ⟨cur, ?_, rfl⟩
    unfold trap
    rw [if_neg hu, hde]
    dsimp only
    rw [hd]

/-- C6: after `trap_dispatch` returns (the handler neither destroyed the
environment nor halted), `trap` consults the DR6 single-step condition: if
the bit is set, it clears the bit and returns to its caller without
resuming any environment; only when the bit is clear does it assert that
the current environment exists and is runnable, and hand it to `env_run`. -/
theorem trap_single_step_gate
    (sys : Nat → Nat → Nat → Nat → Nat → Nat → Int) (fault_va dr6 : Nat)
    (cur : Option Env) (tf : Trapframe)
    (hret : ∃ tf2, (trap_dispatch sys fault_va (dispatch_env cur tf) tf).2 =
      Term.returned tf2)
    (hcur : tf.tf_cs &&& 3 = 3 → cur ≠ none) :
    (dr6 &&& SSTEP_BIT ≠ 0 →
      (trap sys fault_va dr6 cur tf).term = Term.retNoRun ∧
      (trap sys fault_va dr6 cur tf).dr6 =
        dr6 &&& (0xFFFFFFFF ^^^ SSTEP_BIT) ∧
      (trap sys fault_va dr6 cur tf).dr6 &&& SSTEP_BIT = 0) ∧
    (dr6 &&& SSTEP_BIT = 0 →
      (trap sys fault_va dr6 cur tf).dr6 = dr6 ∧
      (∀ e, cur = some e →
        (e.env_status = EnvStatus.ENV_RUNNABLE →
          (trap sys fault_va dr6 cur tf).term = Term.ranEnv e.env_id) ∧
        (e.env_status ≠ EnvStatus.ENV_RUNNABLE →
          (trap sys fault_va dr6 cur tf).term =
            Term.assertFail "curenv && curenv->env_status == ENV_RUNNABLE")) ∧
      (cur = none →
        (trap sys fault_va dr6 cur tf).term =
          Term.assertFail "curenv && curenv->env_status == ENV_RUNNABLE")) := by
  obtain ⟨tf2, hd⟩ := hret
  obtain ⟨c, htr, hmap⟩ :=
    trap_reduces_to_finish sys fault_va dr6 cur tf tf2 hd hcur
  rw [htr]
  constructor
  · intro hss
    obtain ⟨h1, h2⟩ := trap_finish_ss dr6 c _ hss
    refine ⟨h1, h2, ?_⟩
    rw [h2]
    exact land_mask_sstep dr6
  · intro hss
    obtain ⟨h1, h2⟩ := trap_finish_no_ss dr6 c _ hss
    refine ⟨h1, ?_, ?_⟩
    · intro e he
      rw [he] at hmap
      cases c with
      | none => simp at hmap
      | some e2 =>
        simp at hmap
        obtain ⟨hid, hstat⟩ := hmap
        constructor
        · intro hrun
          rw [h2]
          simp [hstat, hrun, hid]
        · intro hnrun
          rw [h2]
          simp [hstat, hnrun]
    · intro he
      rw [he] at hmap
      cases c with
      | none => rw [h2]
      | some e2 => simp at hmap

theorem trap_single_step_gate_spot :
    ((0x4000 : Nat) &&& SSTEP_BIT ≠ 0 →
      (trap sys0 0 0x4000 (some env0)
        { tf0 with tf_trapno := T_BRKPT, tf_cs := 0x1B }).term =
        Term.retNoRun ∧
      (trap sys0 0 0x4000 (some env0)
        { tf0 with tf_trapno := T_BRKPT, tf_cs := 0x1B }).dr6 =
        0x4000 &&& (0xFFFFFFFF ^^^ SSTEP_BIT) ∧
      (trap sys0 0 0x4000 (some env0)
        { tf0 with tf_trapno := T_BRKPT, tf_cs := 0x1B }).dr6 &&&
        SSTEP_BIT = 0) ∧
    ((0x4000 : Nat) &&& SSTEP_BIT = 0 →
      (trap sys0 0 0x4000 (some env0)
        { tf0 with tf_trapno := T_BRKPT, tf_cs := 0x1B }).dr6 = 0x4000 ∧
      (∀ e, (some env0 : Option Env) = some e →
        (e.env_status = EnvStatus.ENV_RUNNABLE →
          (trap sys0 0 0x4000 (some env0)
            { tf0 with tf_trapno := T_BRKPT, tf_cs := 0x1B }).term =
            Term.ranEnv e.env_id) ∧
        (e.env_status ≠ EnvStatus.ENV_RUNNABLE →
          (trap sys0 0 0x4000 (some env0)
            { tf0 with tf_trapno := T_BRKPT, tf_cs := 0x1B }).term =
            Term.assertFail "curenv && curenv->env_status == ENV_RUNNABLE")) ∧
      ((some env0 : Option Env) = none →
        (trap sys0 0 0x4000 (some env0)
          { tf0 with tf_trapno := T_BRKPT, tf_cs := 0x1B }).term =
          Term.assertFail "curenv && curenv->env_status == ENV_RUNNABLE")) :=
  trap_single_step_gate sys0 0 0x4000 (some env0)
    { tf0 with tf_trapno := T_BRKPT, tf_cs := 0x1B }
    ⟨{ tf0 with tf_trapno := T_BRKPT, tf_cs := 0x1B }, by decide⟩
    (fun _ => by decide)

/-- C9: the user/kernel test at trap entry (`(cs & 3) == 3`) differs from
the kernel test of the default arm and of the page fault handler
(`cs == GD_KT`): for every frame whose saved code segment has a
non-user requested privilege level in its low two bits yet is not the
kernel code selector, an unmapped trap or a page fault destroys the
current environment instead of panicking, and the frame is not copied
into the persistent slot (the current environment is unchanged). -/
theorem kernel_selector_classification_gap
    (sys : Nat → Nat → Nat → Nat → Nat → Nat → Int) (fault_va dr6 : Nat)
    (e : Env) (tf : Trapframe)
    (hrpl : tf.tf_cs &&& 3 ≠ 3) (hcs : tf.tf_cs ≠ GD_KT)
    (htr : tf.tf_trapno = T_PGFLT ∨
      (tf.tf_trapno ≠ T_PGFLT ∧ tf.tf_trapno ≠ T_BRKPT ∧
       tf.tf_trapno ≠ T_DEBUG ∧ tf.tf_trapno ≠ T_SYSCALL)) :
    (trap sys fault_va dr6 (some e) tf).term = Term.destroyed e.env_id ∧
    (trap sys fault_va dr6 (some e) tf).curenv = some e := by
  have hd : (trap_dispatch sys fault_va (some e) tf).2 =
      Term.destroyed e.env_id := by
    rcases htr with h | ⟨h1, h2, h3, h4⟩
    · unfold trap_dispatch
      rw [if_pos h]
      unfold page_fault_handler
      dsimp only
      rw [if_neg hcs]
    · unfold trap_dispatch
      rw [if_neg h1, if_neg h2, if_neg h3, if_neg h4, if_neg hcs]
  unfold trap
  rw [if_neg hrpl]
  dsimp only
  rw [hd]
  exact ⟨rfl, rfl⟩

theorem kernel_selector_classification_gap_spot :
    (trap sys0 0 0 (some env0)
      { tf0 with tf_cs := GD_KD, tf_trapno := T_PGFLT }).term =
      Term.destroyed env0.env_id ∧
    (trap sys0 0 0 (some env0)
      { tf0 with tf_cs := GD_KD, tf_trapno := T_PGFLT }).curenv =
      some env0 :=
  kernel_selector_classification_gap sys0 0 0 env0
    { tf0 with tf_cs := GD_KD, tf_trapno := T_PGFLT }
    (by decide) (by decide) (Or.inl (by decide))

end Jos
